import Mathlib

/-!
Shallow embedding of the SimGrid actor/kernel synchronisation layer:
kernel futures (`simgrid::kernel::Future`), the generic simcall wrappers
(`kernelImmediate`, `kernelSync`), the Boost context scheduling
(`SerialBoostContext::suspend`, `BoostContextFactory::run_all`,
`BoostContext::wrapper` / `stop`) and the simulated-time synchronisation
primitives (`ConditionVariable::wait_for`, `sleep_for`, `sleep_until`).

Exceptions are modelled as opaque identifiers; `std::exception_ptr` becomes
an `Option`; the simulated clock uses `Rat` in place of `double` (only
order and subtraction matter for the embedded code paths).
-/

namespace SimGrid

/-- An exception value: either a user exception (opaque id) or the
`std::future_error(std::future_errc::no_state)` raised by the future API. -/
inductive Exc
  | user (n : Nat)
  | futureNoState
deriving DecidableEq, Repr

/-- FutureStatus from the shared state of `simgrid::kernel::Future`:
`enum class FutureStatus { not_ready, ready, done }`. -/
inductive FutureStatus
  | not_ready
  | ready
  | done
deriving DecidableEq, Repr

/-- The shared state `FutureState<T>` behind a future/promise pair:
`status_` (initially `not_ready`), `exception_` (a nullable
`std::exception_ptr`), the stored `continuation_` (modelled by its
presence: `true` iff a continuation task is installed), and the derived
class field `value_` (a `boost::optional<T>`). -/
structure FutureState (T : Type) where
  status : FutureStatus := .not_ready
  exception : Option Exc := none
  continuation : Bool := false
  value : Option T := none
deriving DecidableEq, Repr

/-- A future handle `Future<T>`: a possibly-null shared pointer `state_`
to the shared state. `none` models a default-constructed or moved-from
handle. -/
def Future (T : Type) : Type := Option (FutureState T)

instance (T : Type) [DecidableEq T] : DecidableEq (Future T) := by
  unfold Future; infer_instance

instance (T : Type) [Repr T] : Repr (Future T) := by
  unfold Future; infer_instance

/-- `Future::valid()`: the handle is valid iff `state_ != nullptr`. -/
def Future.valid {T : Type} (f : Future T) : Bool := f.isSome

/-- Outcome of a call to `get()`: a normal return of the stored value, a
rethrow of the stored exception, the thrown
`std::future_error(no_state)`, the fatal
`xbt_die("Deadlock: this future is not ready")`, or a failure of
`xbt_assert(this->value_)`. -/
inductive GetOutcome (T : Type)
  | value (v : T)
  | rethrow (e : Exc)
  | errNoState
  | dieDeadlock
  | assertFail
deriving DecidableEq, Repr

/-- `FutureState<T>::get()`: die if `status_ != ready`; set `status_ =
done`; if an exception is stored, move it out and rethrow it; otherwise
assert the value is present, move it out, reset `value_` and return it.
Returns the outcome together with the mutated shared state. -/
def FutureState.get {T : Type} (s : FutureState T) : GetOutcome T × FutureState T :=
  if s.status ≠ .ready then
    (.dieDeadlock, s)
  else
    let s1 : FutureState T := { s with status := .done }
    match s1.exception with
    | some e => (.rethrow e, { s1 with exception := none })
    | none =>
      match s1.value with
      | none => (.assertFail, s1)
      | some v => (.value v, { s1 with value := none })

/-- `Future<T>::get()`: throw `no_state` if `state_ == nullptr`;
otherwise move the state out of the handle (the handle becomes invalid)
and delegate to `FutureState::get`. Returns the outcome together with
the handle after the call. -/
def Future.get {T : Type} (f : Future T) : GetOutcome T × Future T :=
  match f with
  | none => (.errNoState, none)
  | some s => ((FutureState.get s).1, none)

/-- Modelled from the spec: the body of `FutureStateBase::set_value` /
`FutureState<T>::set_value` is only declared in the source. Per the spec,
setting a promise stores the value and moves the status forward to
`ready` (scheduling any installed continuation, never running it
inline); setting the same promise twice fails with `already_satisfied`
(modelled as `none`). -/
def FutureState.set_value {T : Type} (s : FutureState T) (v : T) : Option (FutureState T) :=
  match s.status with
  | .not_ready => some { s with status := .ready, value := some v }
  | _ => none

/-- Modelled from the spec: the body of `FutureStateBase::set_exception`
is only declared in the source. Per the spec, it stores the exception
and moves the status forward to `ready`; a second setting fails with
`already_satisfied` (modelled as `none`). -/
def FutureState.set_exception {T : Type} (s : FutureState T) (e : Exc) : Option (FutureState T) :=
  match s.status with
  | .not_ready => some { s with status := .ready, exception := some e }
  | _ => none

/-- Modelled from the spec: the body of
`FutureStateBase::set_continuation` is only declared in the source. Per
the spec a continuation may be attached before or after the state
becomes ready (if already ready it is scheduled, not run inline); we
record its presence. -/
def FutureState.set_continuation {T : Type} (s : FutureState T) : FutureState T :=
  { s with continuation := true }

/-- Error codes of `std::future_error` raised by the future API. -/
inductive FutureErrc
  | no_state
deriving DecidableEq, Repr

/-- `Future<T>::then_(continuation)`: throw `no_state` if
`state_ == nullptr`; otherwise move the state out of the handle (giving
shared ownership to the continuation task) and install the continuation
on it. Returns the handle after the call together with the moved state
now carrying the continuation. -/
def Future.then_ {T : Type} (f : Future T) :
    Except FutureErrc (Future T × FutureState T) :=
  match f with
  | none => .error .no_state
  | some s => .ok (none, FutureState.set_continuation s)

/-- Result of `Future<T>::thenNoUnwrap(continuation)` on a valid handle:
the original handle after the call (`orig`), the original shared state
moved into the continuation chain (`chainState`), and the fresh shared
state of the new future/promise pair created inside the call
(`newState`). -/
structure ThenSetup (T R : Type) where
  orig : Future T
  chainState : FutureState T
  newState : FutureState R
deriving Repr

/-- `Future<T>::thenNoUnwrap(continuation)`: throw `no_state` if
`state_ == nullptr`; otherwise move the state out of the handle, create
a fresh promise/future pair, and install on the moved state a
continuation task closing over the promise, the state and the user
continuation. -/
def Future.thenNoUnwrap {T R : Type} (f : Future T) :
    Except FutureErrc (ThenSetup T R) :=
  match f with
  | none => .error .no_state
  | some s => .ok ⟨none, FutureState.set_continuation s, {}⟩

/-- `simgrid::xbt::fulfillPromise(promise, code)`: try to set the
promise to the value computed by `code`; if `code` throws, set the
promise to the thrown exception instead. `none` models the unreachable
`already_satisfied` path. -/
def fulfillPromise {R : Type} (p : FutureState R) (code : Except Exc R) :
    Option (FutureState R) :=
  match code with
  | .ok v => FutureState.set_value p v
  | .error e => FutureState.set_exception p e

/-- The task installed by `thenNoUnwrap` (run later by the scheduler once
the chain state is ready): rebuild a `Future<T>` from the moved state
and fulfill the new promise with the result of the user continuation
applied to that future. The continuation is modelled as a function from
the future to a value-or-thrown-exception. -/
def runThenNoUnwrapTask {T R : Type} (k : Future T → Except Exc R)
    (chain : FutureState T) (promise : FutureState R) : Option (FutureState R) :=
  fulfillPromise promise (k (some chain))

/-- `simgrid::xbt::Result<T>`: a one-slot value-or-exception holder
(`status_` is `invalid`, `value` or `exception`). -/
inductive Result (T : Type)
  | invalid
  | value (v : T)
  | exception (e : Exc)
deriving DecidableEq, Repr

/-- `Result<T>::set_value`. -/
def Result.set_value {T : Type} (_r : Result T) (v : T) : Result T := .value v

/-- `Result<T>::set_exception`. -/
def Result.set_exception {T : Type} (_r : Result T) (e : Exc) : Result T := .exception e

/-- `Result<T>::get()`: return the stored value or rethrow the stored
exception; `none` models the invalid (never-set) slot. -/
def Result.get {T : Type} (r : Result T) : Option (Except Exc T) :=
  match r with
  | .invalid => none
  | .value v => some (.ok v)
  | .exception e => some (.error e)

/-- `fulfillPromise` specialised to the `Result` sink (the same source
template instantiated at `Result<R>`): set the value computed by `code`,
or the exception it throws. -/
def fulfillPromiseResult {R : Type} (r : Result R) (code : Except Exc R) : Result R :=
  match code with
  | .ok v => Result.set_value r v
  | .error e => Result.set_exception r e

/-- `simgrid::xbt::setPromise(promise, future)`: fulfill the sink with
`future.get()`. `none` models the fatal paths of the kernel future's
`get` (`xbt_die` / failed assertion), which are aborts rather than
catchable exceptions. -/
def setPromise {T : Type} (r : Result T) (fut : Future T) : Option (Result T) :=
  match (Future.get fut).1 with
  | .value v => some (Result.set_value r v)
  | .rethrow e => some (Result.set_exception r e)
  | .errNoState => some (Result.set_exception r .futureNoState)
  | .dieDeadlock => none
  | .assertFail => none

/-- `simgrid::simix::kernelImmediate(code)`: if the caller is already in
maestro context (`SIMIX_is_maestro()`), run `code` inline without any
simcall; otherwise marshal `code` through `simcall_run_kernel`, where
the kernel fulfills a `Result<R>` with the outcome, and read it back
with `result.get()`. Returns the delivered outcome (as seen by the
caller) together with the number of simcalls issued. -/
def kernelImmediate {R : Type} (isMaestro : Bool) (code : Except Exc R) :
    Option (Except Exc R) × Nat :=
  if isMaestro then
    (some code, 0)
  else
    ((fulfillPromiseResult (Result.invalid : Result R) code).get, 1)

/-- What the kernel-side closure of `kernelSync` has produced by the time
`simcall_run_blocking` returns to the scheduler: the number of blocking
simcalls issued, whether `unblock(self)` was already called inside the
closure, the actor's `Result<T>` holder as left by the closure, and the
kernel future's shared state now carrying the `then_` continuation (when
`code` returned a valid future). -/
structure KernelSyncSetup (T : Type) where
  simcalls : Nat
  immediateUnblock : Bool
  result : Result T
  pending : Option (FutureState T)
deriving Repr

/-- `simgrid::simix::kernelSync(code)`: die if called from maestro
(`none`); otherwise issue one `simcall_run_blocking` whose kernel
closure runs `code` under a try block. If `code` throws (or the returned
future is invalid so that `then_` throws `no_state`), the catch-all sets
the exception on the actor's `Result` and unblocks the actor
immediately; otherwise `then_` installs on the future's state a
continuation that will transport the future's outcome into the `Result`
and unblock the actor. -/
def kernelSync {T : Type} (isMaestro : Bool) (code : Except Exc (Future T)) :
    Option (KernelSyncSetup T) :=
  if isMaestro then
    none
  else
    some <| match code with
    | .error e =>
        { simcalls := 1, immediateUnblock := true
          result := Result.set_exception .invalid e, pending := none }
    | .ok fut =>
        match Future.then_ fut with
        | .error .no_state =>
            { simcalls := 1, immediateUnblock := true
              result := Result.set_exception .invalid .futureNoState, pending := none }
        | .ok (_, chain) =>
            { simcalls := 1, immediateUnblock := false
              result := .invalid, pending := some chain }

/-- The continuation installed by `kernelSync` on the kernel future,
run by the scheduler once that future is ready: `setPromise(result,
value); unblock(self)`. Returns the updated `Result` (or `none` on the
fatal `setPromise` paths) together with the fact that `unblock` was
called. -/
def kernelSyncContinuation {T : Type} (result : Result T) (value : Future T) :
    Option (Result T) × Bool :=
  (setPromise result value, true)

/-- The scheduler state read by the serial Boost context variant:
`simix_global->process_to_run`, the ordered list of actors to run in the
current round (actors are modelled by identifiers). -/
structure SimixGlobal where
  process_to_run : List Nat
deriving Repr

/-- The shared cursor `BoostContext::process_index_` advanced by
`SerialBoostContext::suspend`. -/
structure SerialState where
  process_index : Nat
deriving Repr

/-- `SerialBoostContext::suspend()`: read the shared index, increment it,
and switch to the context of the actor at that index in
`process_to_run`; when the index is past the end of the list, switch
back to the maestro context (`none`). Returns the new shared state and
the context switched to (`some actor` or `none` for maestro). -/
def SerialBoostContext.suspend (g : SimixGlobal) (s : SerialState) :
    SerialState × Option Nat :=
  let i := s.process_index
  (⟨i + 1⟩,
    if h : i < g.process_to_run.length then some (g.process_to_run.get ⟨i, h⟩)
    else none)

/-- `BoostContextFactory::run_all()` (serial variant): return immediately
when `process_to_run` is empty; otherwise set `process_index_` to 1 and
resume the first actor of the list. -/
def BoostContextFactory.run_all (g : SimixGlobal) : Option (SerialState × Nat) :=
  match g.process_to_run with
  | [] => none
  | p :: _ => some (⟨1⟩, p)

/-- Chain of actor resumptions produced by repeated
`SerialBoostContext::suspend` calls from the given shared state, with
explicit fuel (each resumed actor eventually suspends, advancing the
round). The chain stops when `suspend` switches back to maestro. -/
def serialRunAux (g : SimixGlobal) (fuel : Nat) (s : SerialState) : List Nat :=
  match fuel with
  | 0 => []
  | fuel' + 1 =>
    match SerialBoostContext.suspend g s with
    | (s', some p) => p :: serialRunAux g fuel' s'
    | (_, none) => []

/-- The actors resumed during one serial round, in order: the first actor
resumed by `run_all`, then the actors chained through `suspend`. -/
def serialRoundTrace (g : SimixGlobal) : List Nat :=
  match BoostContextFactory.run_all g with
  | none => []
  | some (s, p) => p :: serialRunAux g g.process_to_run.length s

/-- How one run of an actor's body inside its context ends: the user
code returns normally, a `StopRequest` is raised (the stop signal), or
some other exception escapes the user code. -/
inductive RunOutcome
  | normal
  | stopRequest
  | otherExc (e : Exc)
deriving DecidableEq, Repr

/-- How the context entry trampoline `BoostContext::wrapper` exits:
whether the `StopRequest` signal was caught there, whether control was
handed back to the scheduler via `suspend()`, and the exception that
escaped the trampoline uncaught (terminating the simulation), if any. -/
structure WrapperExit where
  caughtStop : Bool
  suspended : Bool
  escaped : Option Exc
deriving DecidableEq, Repr

/-- `BoostContext::wrapper`: run the actor's code in a try block whose
only handler catches `StopRequest` (and swallows it); then suspend back
to the scheduler. Any other exception is not caught and escapes the
trampoline. -/
def BoostContext.wrapper (run : RunOutcome) : WrapperExit :=
  match run with
  | .normal => ⟨false, true, none⟩
  | .stopRequest => ⟨true, true, none⟩
  | .otherExc e => ⟨false, false, some e⟩

/-- `BoostContext::stop()`: perform `Context::stop()` then raise the
stop signal by throwing `StopRequest` inside the context, so the run
unwinds with the stop signal. -/
def BoostContext.stop : RunOutcome := .stopRequest

/-- The two-valued status returned by a timed condition-variable wait
(`std::cv_status`). -/
inductive CvStatus
  | no_timeout
  | timeout
deriving DecidableEq, Repr

/-- Categories of `xbt_ex` relevant to `ConditionVariable::wait_for`:
the timeout category versus any other category. -/
inductive XbtCategory
  | timeout_error
  | other_error
deriving DecidableEq, Repr

/-- How the simcall `simcall_cond_wait_timeout` returns to the caller:
normally, with a thrown `xbt_ex` of some category, or with some other
exception. -/
inductive CondSimcallRes
  | ok
  | xbtEx (cat : XbtCategory)
  | otherEx
deriving DecidableEq, Repr

/-- What `ConditionVariable::wait_for` did: the timeout value actually
passed to `simcall_cond_wait_timeout`, whether `lock.mutex()->lock()`
was invoked to re-acquire the mutex before returning, and the outcome
(a returned `cv_status`, or `std::terminate`, modelled as `none`). -/
structure CvWaitResult where
  issued : Rat
  relocked : Bool
  outcome : Option CvStatus
deriving DecidableEq, Repr

/-- `ConditionVariable::wait_for(lock, timeout)`: clamp a negative
timeout to 0 (the simcall would read -1 as "no timeout"); issue
`simcall_cond_wait_timeout` and return `no_timeout` on normal return.
If it throws an `xbt_ex` of category `timeout_error`, re-acquire the
mutex and return `timeout`; if the re-acquisition throws, terminate.
Any other exception terminates. `sim` gives the simcall's behaviour as
a function of the issued timeout; `relockOk` tells whether the mutex
re-acquisition succeeds. -/
def ConditionVariable.wait_for (timeout : Rat) (sim : Rat → CondSimcallRes)
    (relockOk : Bool) : CvWaitResult :=
  let t := if timeout < 0 then 0 else timeout
  match sim t with
  | .ok => ⟨t, false, some .no_timeout⟩
  | .xbtEx .timeout_error =>
      if relockOk then ⟨t, true, some .timeout⟩ else ⟨t, true, none⟩
  | .xbtEx .other_error => ⟨t, false, none⟩
  | .otherEx => ⟨t, false, none⟩

/-- `simgrid::s4u::this_actor::sleep_for(duration)`: issue
`simcall_process_sleep(duration)` only when `duration > 0`. Returns the
duration passed to the simcall, or `none` when no simcall is issued. -/
def sleep_for (duration : Rat) : Option Rat :=
  if duration > 0 then some duration else none

/-- `simgrid::s4u::this_actor::sleep_until(timeout)`: read the clock and
issue `simcall_process_sleep(timeout - now)` only when `timeout > now`.
Returns the duration passed to the simcall, or `none` when no simcall
is issued. -/
def sleep_until (now timeout : Rat) : Option Rat :=
  if timeout > now then some (timeout - now) else none

/-- C1: for every kernel future handle, `get()` never blocks (it is a
total function of the handle): on a handle with no shared state it fails
with the `no_state` error; when the state exists but its status is
`not_ready` or `done` (not ready) it fails with the deadlock error; when
the state is ready it returns the stored value, or rethrows the stored
exception when one is present. -/
theorem future_get_never_blocks {T : Type} (exc : Option Exc) (c : Bool)
    (val : Option T) (e : Exc) (v : T) :
    (Future.get (T := T) none).1 = .errNoState
    ∧ (Future.get (some ⟨.not_ready, exc, c, val⟩)).1 = .dieDeadlock
    ∧ (Future.get (some ⟨.done, exc, c, val⟩)).1 = .dieDeadlock
    ∧ (Future.get (some ⟨.ready, some e, c, val⟩)).1 = .rethrow e
    ∧ (Future.get (some ⟨.ready, none, c, some v⟩)).1 = .value v := by
  refine ⟨rfl, ?_, ?_, ?_, ?_⟩ <;> simp [Future.get, FutureState.get]

/-- C3: for every ready shared state (satisfying the exactly-one-of
value/exception invariant), a successful `get()` leaves the state with
status `done` and both the value and the exception storage emptied; a
second `get()` on the resulting state fails with the deadlock error, so
the same result can never be obtained twice. -/
theorem sharedState_get_empties_storage {T : Type} (c : Bool) (e : Exc) (v : T) :
    FutureState.get (⟨.ready, none, c, some v⟩ : FutureState T)
        = (.value v, ⟨.done, none, c, none⟩)
    ∧ FutureState.get (⟨.ready, some e, c, none⟩ : FutureState T)
        = (.rethrow e, ⟨.done, none, c, none⟩)
    ∧ (FutureState.get ((FutureState.get
        (⟨.ready, none, c, some v⟩ : FutureState T)).2)).1 = .dieDeadlock
    ∧ (FutureState.get ((FutureState.get
        (⟨.ready, some e, c, none⟩ : FutureState T)).2)).1 = .dieDeadlock := by
  refine ⟨?_, ?_, ?_, ?_⟩ <;> simp [FutureState.get]

/-- C6: for every closure outcome, `kernelImmediate` run from maestro
context returns the closure's value (or rethrows its exception) inline
with zero simcalls; run from actor context it delivers the same outcome
through exactly one immediate simcall. -/
theorem kernelImmediate_inline_or_marshalled {R : Type} (code : Except Exc R) :
    kernelImmediate true code = (some code, 0)
    ∧ kernelImmediate false code = (some code, 1) := by
  constructor
  · simp [kernelImmediate]
  · cases code <;>
      simp [kernelImmediate, fulfillPromiseResult, Result.set_value,
        Result.set_exception, Result.get]

/-- C9: the stop path (`BoostContext::stop`) raises the `StopRequest`
signal inside the context; the entry trampoline `BoostContext::wrapper`
catches exactly `StopRequest` — swallowing it and suspending back to the
scheduler — while a normal return also suspends after the stop path, and
any other exception escaping user code is not caught there (it escapes
the trampoline, terminating the simulation). -/
theorem wrapper_catches_exactly_stop (e : Exc) :
    BoostContext.wrapper BoostContext.stop = ⟨true, true, none⟩
    ∧ BoostContext.wrapper .normal = ⟨false, true, none⟩
    ∧ BoostContext.wrapper (.otherExc e) = ⟨false, false, some e⟩ :=
  ⟨rfl, rfl, rfl⟩

/-- C7: for every timed condition-variable wait, a normal simcall return
yields `no_timeout`; when the simcall raises the timeout `xbt_ex`, the
waiter re-acquires the mutex and returns `timeout`, and if the
re-acquisition throws the program terminates; an `xbt_ex` of any other
category, or any other exception, also terminates the program. -/
theorem wait_for_timeout_relocks (d : Rat) (rl : Bool) :
    ConditionVariable.wait_for d (fun _ => .ok) rl
      = ⟨if d < 0 then 0 else d, false, some .no_timeout⟩
    ∧ ConditionVariable.wait_for d (fun _ => .xbtEx .timeout_error) true
      = ⟨if d < 0 then 0 else d, true, some .timeout⟩
    ∧ ConditionVariable.wait_for d (fun _ => .xbtEx .timeout_error) false
      = ⟨if d < 0 then 0 else d, true, none⟩
    ∧ ConditionVariable.wait_for d (fun _ => .xbtEx .other_error) rl
      = ⟨if d < 0 then 0 else d, false, none⟩
    ∧ ConditionVariable.wait_for d (fun _ => .otherEx) rl
      = ⟨if d < 0 then 0 else d, false, none⟩ := by
  refine ⟨?_, ?_, ?_, ?_, ?_⟩ <;> simp [ConditionVariable.wait_for]

/-- Chaining `suspend` calls from index `i` resumes exactly the suffix of
the to-run list starting at `i`, provided the fuel covers the remaining
actors. -/
theorem serialRunAux_eq_drop (l : List Nat) :
    ∀ fuel i, l.length ≤ i + fuel →
      serialRunAux ⟨l⟩ fuel ⟨i⟩ = l.drop i := by
  intro fuel
  induction fuel with
  | zero =>
    intro i h
    have hi : l.length ≤ i := by omega
    simp [serialRunAux, List.drop_eq_nil_of_le hi]
  | succ fuel ih =>
    intro i h
    by_cases hi : i < l.length
    · simp only [serialRunAux, SerialBoostContext.suspend, dif_pos hi]
      rw [ih (i + 1) (by omega)]
      rw [List.drop_eq_getElem_cons hi]
      simp [List.get_eq_getElem]
    · simp [serialRunAux, SerialBoostContext.suspend, dif_neg hi,
        List.drop_eq_nil_of_le (by omega : l.length ≤ i)]

/-- C4: in the serial context variant, the round started by `run_all`
resumes the actors exactly in the order of the scheduler's to-run list
(FIFO), each `suspend` advancing the shared index by one; and whenever
the shared index is at or past the end of the list, `suspend` switches
back to the maestro context. -/
theorem serial_round_is_fifo (g : SimixGlobal) (k : Nat) :
    serialRoundTrace g = g.process_to_run
    ∧ (SerialBoostContext.suspend g ⟨g.process_to_run.length + k⟩).2 = none
    ∧ (SerialBoostContext.suspend g ⟨g.process_to_run.length + k⟩).1.process_index
        = g.process_to_run.length + k + 1 := by
  refine ⟨?_, ?_, rfl⟩
  · cases hl : g.process_to_run with
    | nil =>
      cases g
      simp_all [serialRoundTrace, BoostContextFactory.run_all]
    | cons p rest =>
      cases g
      simp_all only [serialRoundTrace, BoostContextFactory.run_all]
      rw [serialRunAux_eq_drop (p :: rest) (p :: rest).length 1 (by simp)]
      simp
  · simp only [SerialBoostContext.suspend]
    exact dif_neg (by omega)

/-- The timeout actually handed to `simcall_cond_wait_timeout` by
`wait_for` is the clamped duration, on every simcall behaviour. -/
theorem wait_for_issued_eq_clamped (d : Rat) (sim : Rat → CondSimcallRes)
    (rl : Bool) :
    (ConditionVariable.wait_for d sim rl).issued = if d < 0 then 0 else d := by
  unfold ConditionVariable.wait_for
  cases h : sim (if d < 0 then 0 else d) with
  | ok => simp [h]
  | xbtEx cat =>
    cases cat with
    | timeout_error => cases rl <;> simp [h]
    | other_error => simp [h]
  | otherEx => simp [h]

/-- C10: for every negative duration, `wait_for` clamps the timeout to 0
before issuing the timed-wait simcall — the simcall receives 0, in
particular never the special "no timeout" value -1. -/
theorem wait_for_clamps_negative_timeout (d : Rat) (sim : Rat → CondSimcallRes)
    (rl : Bool) (h : d < 0) :
    (ConditionVariable.wait_for d sim rl).issued = 0
    ∧ (ConditionVariable.wait_for d sim rl).issued ≠ -1 := by
  rw [wait_for_issued_eq_clamped, if_pos h]
  exact ⟨rfl, by norm_num⟩

/-- C10 witness: the clamping theorem applied at duration -3 with a
normally-returning simcall. -/
theorem wait_for_clamps_negative_timeout_witness :
    (ConditionVariable.wait_for (-3) (fun _ => .ok) true).issued = 0
    ∧ (ConditionVariable.wait_for (-3) (fun _ => .ok) true).issued ≠ -1 :=
  wait_for_clamps_negative_timeout (-3) (fun _ => .ok) true (by norm_num)

/-- C8 counterexample: the claim that a non-positive duration still
issues the sleep simcall is false — at duration 0 (and at any
non-positive duration), `sleep_for` issues no simcall at all. -/
theorem sleep_for_nonpositive_claim_false :
    sleep_for 0 = none
    ∧ ¬ (∀ d : Rat, d ≤ 0 → (sleep_for d).isSome = true) := by
  constructor
  · simp [sleep_for]
  · intro h
    have := h 0 le_rfl
    simp [sleep_for] at this

/-- C8 (amended): for every duration d ≤ 0, `sleep_for(d)` is a no-op
that issues no sleep simcall (no scheduler round-trip), and likewise
`sleep_until(t)` for every time point t not after the current clock
value. -/
theorem sleep_nonpositive_is_noop (d now t : Rat) (hd : d ≤ 0) (ht : t ≤ now) :
    sleep_for d = none ∧ sleep_until now t = none := by
  constructor
  · simp [sleep_for]
    linarith
  · simp [sleep_until]
    linarith

/-- C8 witness: the amended no-op theorem applied at duration 0 and at a
target time equal to the current clock. -/
theorem sleep_nonpositive_is_noop_witness :
    sleep_for 0 = none ∧ sleep_until 5 5 = none :=
  sleep_nonpositive_is_noop 0 5 5 (by norm_num) (by norm_num)

/-- C2: `then` (here `thenNoUnwrap`) and `then_` consume the future
handle — on a valid handle the shared state is moved into the
continuation chain and the returned original handle is invalid — while
on an invalid handle both fail with the `no_state` error; and the new
future returned by `thenNoUnwrap` receives the continuation's result:
once the moved state is made ready and the installed task runs, `get()`
on the new future's state returns the continuation's value (or rethrows
the exception the continuation threw). -/
theorem then_consumes_and_chains {T R : Type} (s : FutureState T)
    (k : Future T → Except Exc R) (v : T) :
    Future.then_ (T := T) none = .error .no_state
    ∧ Future.thenNoUnwrap (T := T) (R := R) none = .error .no_state
    ∧ (∀ h chain, Future.then_ (some s) = .ok (h, chain) →
        Future.valid h = false ∧ chain = FutureState.set_continuation s)
    ∧ (∀ setup : ThenSetup T R, Future.thenNoUnwrap (some s) = .ok setup →
        Future.valid setup.orig = false
        ∧ ∀ chainReady, FutureState.set_value setup.chainState v = some chainReady →
          ∀ final, runThenNoUnwrapTask k chainReady setup.newState = some final →
            (FutureState.get final).1 =
              (match k (some chainReady) with
                | .ok r => .value r
                | .error e => .rethrow e)) := by
  refine ⟨rfl, rfl, ?_, ?_⟩
  · intro h chain hok
    simp only [Future.then_, Except.ok.injEq, Prod.mk.injEq] at hok
    exact ⟨by simp [← hok.1, Future.valid], hok.2.symm⟩
  · intro setup hok
    simp only [Future.thenNoUnwrap, Except.ok.injEq] at hok
    subst hok
    refine ⟨rfl, ?_⟩
    intro chainReady _ final hrun
    simp only [runThenNoUnwrapTask, fulfillPromise] at hrun
    cases hk : k (some chainReady) with
    | ok r =>
      rw [hk] at hrun
      simp only [FutureState.set_value] at hrun
      cases hrun
      simp [FutureState.get]
    | error e =>
      rw [hk] at hrun
      simp only [FutureState.set_exception] at hrun
      cases hrun
      simp [FutureState.get]

/-- C2 witness: the chaining theorem applied to a fresh state, the
constant continuation returning 42, and value 7; the new future's state
ends up holding 42. -/
theorem then_consumes_and_chains_witness :
    Future.valid (⟨none, FutureState.set_continuation {}, {}⟩ : ThenSetup Nat Nat).orig
      = false
    ∧ (FutureState.get (⟨.ready, none, false, some 42⟩ : FutureState Nat)).1
      = .value 42 := by
  have h := (then_consumes_and_chains (T := Nat) (R := Nat) {}
    (fun _ => Except.ok 42) 7).2.2.2
    ⟨none, FutureState.set_continuation {}, {}⟩ rfl
  exact ⟨h.1, h.2 ⟨.ready, none, true, some 7⟩ rfl ⟨.ready, none, false, some 42⟩ rfl⟩

/-- C5: for every actor calling `kernelSync`: exactly one blocking
simcall is issued; if the kernel closure throws synchronously the actor
is unblocked immediately with the exception stored in its result holder;
otherwise the continuation is attached to the returned future's state
and the actor is not yet unblocked; and when that future resolves, the
continuation transports its value (or stored exception) into the actor's
result holder and unblocks the actor. -/
theorem kernelSync_blocking_contract {T : Type} (code : Except Exc (Future T))
    (e : Exc) (s : FutureState T) (v : T) :
    (∀ setup, kernelSync false code = some setup → setup.simcalls = 1)
    ∧ (∀ setup, kernelSync (T := T) false (.error e) = some setup →
        setup.immediateUnblock = true ∧ setup.result.get = some (.error e))
    ∧ (∀ setup, kernelSync false (.ok (some s)) = some setup →
        setup.immediateUnblock = false
        ∧ setup.pending = some (FutureState.set_continuation s)
        ∧ setup.result = .invalid)
    ∧ kernelSyncContinuation (Result.invalid : Result T)
        (some ⟨.ready, none, true, some v⟩) = (some (.value v), true)
    ∧ kernelSyncContinuation (Result.invalid : Result T)
        (some ⟨.ready, some e, true, none⟩) = (some (.exception e), true) := by
  refine ⟨?_, ?_, ?_, ?_, ?_⟩
  · intro setup hok
    cases code with
    | error e' =>
      simp [kernelSync] at hok
      simp [← hok]
    | ok fut =>
      cases fut with
      | none =>
        simp [kernelSync, Future.then_] at hok
        simp [← hok]
      | some st =>
        simp [kernelSync, Future.then_] at hok
        simp [← hok]
  · intro setup hok
    simp [kernelSync] at hok
    simp [← hok, Result.set_exception, Result.get]
  · intro setup hok
    simp [kernelSync, Future.then_] at hok
    simp [← hok]
  · simp [kernelSyncContinuation, setPromise, Future.get, FutureState.get,
      Result.set_value]
  · simp [kernelSyncContinuation, setPromise, Future.get, FutureState.get,
      Result.set_exception]

/-- C5 witness: the blocking contract applied with the user exception 3,
a fresh future state and the value 5; the kernel closure outputs are the
concrete setups computed by `kernelSync`. -/
theorem kernelSync_blocking_contract_witness :
    (⟨1, true, Result.exception (Exc.user 3), none⟩
        : KernelSyncSetup Nat).simcalls = 1
    ∧ ((⟨1, true, Result.exception (Exc.user 3), none⟩
          : KernelSyncSetup Nat).immediateUnblock = true
        ∧ (Result.exception (Exc.user 3) : Result Nat).get
          = some (.error (.user 3)))
    ∧ ((⟨1, false, .invalid, some (FutureState.set_continuation {})⟩
          : KernelSyncSetup Nat).immediateUnblock = false
        ∧ (⟨1, false, .invalid, some (FutureState.set_continuation {})⟩
            : KernelSyncSetup Nat).pending
          = some (FutureState.set_continuation ({} : FutureState Nat))
        ∧ (⟨1, false, .invalid, some (FutureState.set_continuation {})⟩
            : KernelSyncSetup Nat).result = .invalid)
    ∧ kernelSyncContinuation (Result.invalid : Result Nat)
        (some ⟨.ready, none, true, some 5⟩) = (some (.value 5), true) := by
  have h := kernelSync_blocking_contract (T := Nat) (.error (.user 3))
    (.user 3) {} 5
  exact ⟨h.1 _ rfl, h.2.1 _ rfl, h.2.2.1 _ rfl, h.2.2.2.1⟩

end SimGrid
